import Mathlib

/-!
Shallow embedding of `scripts/moe_stress_test.py`: the MoE stress-testing
harness (request client, GPU monitor, server lifecycle, scenario runners and
orchestrator), together with theorems checking the design document's claims
against it.

Real time, subprocesses and HTTP are modelled by passing the environment's
responses in explicitly: an `HttpOutcome` is what one network call came back
with, a `GatherItem` is one entry of the list `asyncio.gather` returned, and
durations are rationals (floats in the script hold wall-clock seconds; none of
the claims depend on float rounding).
-/

set_option autoImplicit false
set_option maxRecDepth 8000

namespace MoeStress

/-- Helper for `tokenCount`: walks the characters once; `inWord` records
whether the previous character was inside a word. -/
def countWordsAux : List Char → Bool → Nat
  | [], _ => 0
  | c :: cs, inWord =>
    if c.isWhitespace then countWordsAux cs false
    else (if inWord then 0 else 1) + countWordsAux cs true

/-- Python's `len(s.split())`: the number of maximal whitespace-free runs.
Used by `ShimmyClient.generate` as the token-count proxy. -/
def tokenCount (s : String) : Nat := countWordsAux s.data false

/-- The dict returned by `ShimmyClient.generate` (both branches build the same
five keys). -/
structure GenerationResult where
  success : Bool
  response : String
  tokens : Nat
  response_time : ℚ
  error : Option String
deriving DecidableEq

/-- What the single `session.post` inside `ShimmyClient.generate` came back
with: a 200 body, a non-200 status with its error text, or a raised transport
exception (connection refused, timeout, ...). `elapsed` is
`end_time - start_time` for that call. -/
inductive HttpOutcome where
  | ok (body : String) (elapsed : ℚ)
  | httpError (status : Nat) (text : String) (elapsed : ℚ)
  | transportError (msg : String) (elapsed : ℚ)
deriving DecidableEq

/-- `ShimmyClient.generate`: a non-200 status raises
`Exception(f"API error {status}: {text}")`, and the surrounding
`try/except` converts every exception into a `success=False` dict, so the
function always returns a dict and never propagates a fault. -/
def ShimmyClient.generate : HttpOutcome → GenerationResult
  | .ok body t =>
      { success := true
        response := body
        tokens := tokenCount body
        response_time := t
        error := none }
  | .httpError status text t =>
      { success := false
        response := ""
        tokens := 0
        response_time := t
        error := some ("API error " ++ toString status ++ ": " ++ text) }
  | .transportError msg t =>
      { success := false
        response := ""
        tokens := 0
        response_time := t
        error := some msg }

/-- The `TestMetrics` dataclass. `start_time`/`end_time` are abstract
timestamps. -/
structure TestMetrics where
  model_name : String
  test_name : String
  start_time : ℚ
  end_time : ℚ
  tokens_generated : Nat
  total_time_seconds : ℚ
  tokens_per_second : ℚ
  peak_gpu_memory_mb : ℚ
  peak_cpu_memory_mb : ℚ
  average_response_time_ms : ℚ
  success_rate : ℚ
  quality_score : ℚ
deriving DecidableEq

/-- The module-level `TEST_PROMPTS` dict: category name to its prompt list
(insertion order, as Python iterates it). -/
def TEST_PROMPTS : List (String × List String) :=
  [ ("creative",
      [ "Write a compelling short story about an AI that discovers it can dream."
      , "Create a detailed fantasy world with unique magic systems and cultures."
      , "Compose a thought-provoking poem about the intersection of technology and nature." ])
  , ("technical",
      [ "Explain the mathematical foundations of transformer architectures in neural networks."
      , "Design a distributed system architecture for handling millions of concurrent users."
      , "Implement a efficient algorithm for finding the shortest path in a weighted graph." ])
  , ("analytical",
      [ "Analyze the economic implications of artificial intelligence on global labor markets."
      , "Compare and contrast different approaches to quantum computing implementation."
      , "Evaluate the ethical considerations surrounding autonomous vehicle decision-making." ])
  , ("conversational",
      [ "I\x27m planning a trip to Japan. Can you help me create a 2-week itinerary?"
      , "I\x27m learning to cook. What are some essential techniques I should master first?"
      , "I\x27m interested in starting a garden. What should I consider for a beginner?" ])
  , ("mathematical",
      [ "Solve this system of equations step by step: 3x + 2y = 12, 5x - y = 8"
      , "Calculate the integral of x^2 * sin(x) dx using integration by parts."
      , "Prove that the square root of 2 is irrational using proof by contradiction." ]) ]

/-- `GPUMonitor`: `peak_memory` is the running maximum, `monitoring` the loop
flag. The background thread itself is modelled by `GPUMonitor.monitorLoop`
below, applied to the list of samples the thread saw during its window. -/
structure GPUMonitor where
  peak_memory : ℚ
  monitoring : Bool
deriving DecidableEq

/-- `GPUMonitor.__init__`. -/
def GPUMonitor.init : GPUMonitor := { peak_memory := 0, monitoring := false }

/-- `GPUMonitor.start_monitoring`: sets the flag and resets the peak
accumulator to zero before launching the thread. -/
def GPUMonitor.start_monitoring (m : GPUMonitor) : GPUMonitor :=
  { m with monitoring := true, peak_memory := 0 }

/-- One iteration of `GPUMonitor._monitor_loop`: `some memory_mb` is a
successful `nvidia-smi` reading, folded into the running maximum; `none` is a
failed sample (the exception is caught, logged, and skipped, so the state is
unchanged and the loop continues). -/
def GPUMonitor.sample (m : GPUMonitor) : Option ℚ → GPUMonitor
  | some memory_mb => { m with peak_memory := max m.peak_memory memory_mb }
  | none => m

/-- `GPUMonitor._monitor_loop` over the samples taken while the flag was
set. -/
def GPUMonitor.monitorLoop (m : GPUMonitor) (samples : List (Option ℚ)) : GPUMonitor :=
  samples.foldl GPUMonitor.sample m

/-- `GPUMonitor.stop_monitoring`: clears the flag, joins the thread, and
returns the peak. -/
def GPUMonitor.stop_monitoring (m : GPUMonitor) : ℚ × GPUMonitor :=
  (m.peak_memory, { m with monitoring := false })

/-- The mutable fields of `StressTester` the lifecycle claims touch:
`results` is the shared metrics collection, `server_process` the owned
`Popen` handle (modelled by its pid). -/
structure StressTester where
  results : List TestMetrics
  server_process : Option Nat
deriving DecidableEq

/-- `StressTester.stop_shimmy_server`: when a process handle is held it is
terminated (killed after a 10 s grace period if the wait times out) and the
`finally` block clears the handle; when no handle is held nothing happens.
Every path through the body ends with `server_process = None` and no other
field changed, which is all the embedding records. -/
def StressTester.stop_shimmy_server (st : StressTester) : StressTester :=
  { st with server_process := none }

/-- How far `StressTester.start_shimmy_server` got before its `try` block
finished: `spawnFailure` is an exception raised before or by `subprocess.Popen`
(no new process exists), `healthStatus code` is a completed health `GET` with
that status code, and `healthException` is an exception raised by the health
`GET` itself (connection refused, timeout) after the spawn succeeded. -/
inductive StartOutcome where
  | spawnFailure (msg : String)
  | healthStatus (status_code : Nat)
  | healthException (msg : String)
deriving DecidableEq

/-- `StressTester.start_shimmy_server`: stops any existing server, spawns the
new one (storing the handle in `server_process`), sleeps, then issues one
health `GET`. Returns `True` only for a 200 health response. Every exception
is caught by the enclosing `try/except`, which logs and returns `False`; no
path terminates the just-spawned process. -/
def StressTester.start_shimmy_server (st : StressTester) (pid : Nat) :
    StartOutcome → Bool × StressTester
  | .spawnFailure _ => (false, st.stop_shimmy_server)
  | .healthStatus status_code =>
      let st2 := { st.stop_shimmy_server with server_process := some pid }
      if status_code = 200 then (true, st2) else (false, st2)
  | .healthException _ =>
      (false, { st.stop_shimmy_server with server_process := some pid })

/-- Loop body shared by the two sequential scenarios: a successful result adds
its tokens and elapsed time to the running totals and bumps the success count;
a failed result only logs. `acc` is `(total_tokens, total_time,
successful_requests)`. -/
def seqStep (acc : Nat × ℚ × Nat) (result : GenerationResult) : Nat × ℚ × Nat :=
  if result.success then (acc.1 + result.tokens, acc.2.1 + result.response_time, acc.2.2 + 1)
  else acc

/-- The prompts `run_basic_generation_test` iterates: `prompts[:2]` for each
category of `TEST_PROMPTS`, in order. -/
def basicPrompts : List String :=
  TEST_PROMPTS.foldl (fun acc cp => acc ++ cp.2.take 2) []

/-- `StressTester.run_basic_generation_test`. `gen` is the environment: the
result `client.generate` returns for each prompt. The monitor readings and
timestamps (`peak_gpu`, `initial_cpu`, `final_cpu`, `start_t`, `end_t`) are
likewise inputs from the environment. -/
def run_basic_generation_test (model : String) (gen : String → GenerationResult)
    (peak_gpu initial_cpu final_cpu start_t end_t : ℚ) : TestMetrics :=
  let acc := basicPrompts.foldl (fun acc prompt => seqStep acc (gen prompt)) (0, 0, 0)
  let total_tokens := acc.1
  let total_time := acc.2.1
  let successful_requests := acc.2.2
  { model_name := model
    test_name := "basic_generation"
    start_time := start_t
    end_time := end_t
    tokens_generated := total_tokens
    total_time_seconds := total_time
    tokens_per_second := if 0 < total_time then (total_tokens : ℚ) / total_time else 0
    peak_gpu_memory_mb := peak_gpu
    peak_cpu_memory_mb := final_cpu - initial_cpu
    average_response_time_ms :=
      if 0 < successful_requests then (total_time / (successful_requests : ℚ)) * 1000 else 0
    success_rate := (successful_requests : ℚ) / ((TEST_PROMPTS.length * 2 : Nat) : ℚ)
    quality_score := 9/10 }

/-- The `long_prompts` list of `run_long_form_generation_test`. -/
def long_prompts : List String :=
  [ "Write a comprehensive analysis of renewable energy technologies, covering solar, wind, hydroelectric, and emerging technologies. Include economic considerations, environmental impact, and future prospects."
  , "Create a detailed technical specification for a distributed microservices architecture that can handle millions of users. Include database design, caching strategies, load balancing, and monitoring."
  , "Develop a complete business plan for a sustainable agriculture startup, including market analysis, technology requirements, financial projections, and scaling strategy." ]

/-- `StressTester.run_long_form_generation_test`: same sequential shape as the
basic scenario over `long_prompts`, with `success_rate` divided by
`len(long_prompts)`. -/
def run_long_form_generation_test (model : String) (gen : String → GenerationResult)
    (peak_gpu initial_cpu final_cpu start_t end_t : ℚ) : TestMetrics :=
  let acc := long_prompts.foldl (fun acc prompt => seqStep acc (gen prompt)) (0, 0, 0)
  let total_tokens := acc.1
  let total_time := acc.2.1
  let successful_requests := acc.2.2
  { model_name := model
    test_name := "long_form_generation"
    start_time := start_t
    end_time := end_t
    tokens_generated := total_tokens
    total_time_seconds := total_time
    tokens_per_second := if 0 < total_time then (total_tokens : ℚ) / total_time else 0
    peak_gpu_memory_mb := peak_gpu
    peak_cpu_memory_mb := final_cpu - initial_cpu
    average_response_time_ms :=
      if 0 < successful_requests then (total_time / (successful_requests : ℚ)) * 1000 else 0
    success_rate := (successful_requests : ℚ) / ((long_prompts.length : Nat) : ℚ)
    quality_score := 17/20 }

/-- One element of the list `asyncio.gather(*tasks, return_exceptions=True)`
returns in `run_concurrent_load_test`: either the dict a task returned or the
exception it raised (captured, so no sibling is cancelled). -/
inductive GatherItem where
  | dictResult (d : GenerationResult)
  | exceptionItem (msg : String)
deriving DecidableEq

/-- The per-result processing of `run_concurrent_load_test`: only items that
are dicts with `success` count; tokens are summed, `total_time` takes the
maximum of the response times, and the success count is bumped. -/
def concStep (acc : Nat × ℚ × Nat) : GatherItem → Nat × ℚ × Nat
  | .dictResult d =>
      if d.success then (acc.1 + d.tokens, max acc.2.1 d.response_time, acc.2.2 + 1) else acc
  | .exceptionItem _ => acc

/-- The prompts of the tasks `run_concurrent_load_test` issues: for each
`i in range(5)` and each category, `f"Request {i}: {prompts[i % len(prompts)]}"`.
Its length is `len(concurrent_requests)`. -/
def concurrentPrompts : List String :=
  (List.range 5).foldl (fun acc i =>
    acc ++ TEST_PROMPTS.map (fun cp =>
      "Request " ++ toString i ++ ": " ++ cp.2.getD (i % cp.2.length) "")) []

/-- `StressTester.run_concurrent_load_test`. `gen` maps each issued prompt to
the corresponding entry of the gathered result list (one entry per task). -/
def run_concurrent_load_test (model : String) (gen : String → GatherItem)
    (peak_gpu initial_cpu final_cpu start_t end_t : ℚ) : TestMetrics :=
  let results := concurrentPrompts.map gen
  let acc := results.foldl concStep (0, 0, 0)
  let total_tokens := acc.1
  let total_time := acc.2.1
  let successful_requests := acc.2.2
  { model_name := model
    test_name := "concurrent_load"
    start_time := start_t
    end_time := end_t
    tokens_generated := total_tokens
    total_time_seconds := total_time
    tokens_per_second := if 0 < total_time then (total_tokens : ℚ) / total_time else 0
    peak_gpu_memory_mb := peak_gpu
    peak_cpu_memory_mb := final_cpu - initial_cpu
    average_response_time_ms :=
      if 0 < successful_requests then (total_time / (successful_requests : ℚ)) * 1000 else 0
    success_rate := (successful_requests : ℚ) / ((concurrentPrompts.length : Nat) : ℚ)
    quality_score := 4/5 }

/-- `StressTester.run_all_tests_for_model`. `startOk` is what
`start_shimmy_server` returned; `scenarioMetrics` are the records the three
scenario coroutines would produce in order; `completed` is how many of those
awaits return normally before an abnormal abort (equal to the list length on a
normal run). Output: the value returned to the caller (`none` when an abort
propagates past the `finally`), the tester state afterwards, and whether
`stop_shimmy_server` ran. On a start failure the function returns `[]` at once:
no scenario runs, nothing is appended, the `try/finally` is never entered. On
entry to the `try`, each completed scenario's record is appended to the shared
`self.results`, and the `finally` always runs `stop_shimmy_server`. -/
def StressTester.run_all_tests_for_model (st : StressTester) (startOk : Bool)
    (scenarioMetrics : List TestMetrics) (completed : Nat) :
    Option (List TestMetrics) × StressTester × Bool :=
  if startOk = false then
    (some [], st, false)
  else
    let ran := scenarioMetrics.take completed
    let st1 : StressTester := { st with results := st.results ++ ran }
    let st2 := st1.stop_shimmy_server
    if scenarioMetrics.length ≤ completed then (some scenarioMetrics, st2, true)
    else (none, st2, true)

/-- The per-model loop of `main`: each model contributes its start outcome and
the scenario records of a normal (uninterrupted) run; the tester state is
threaded through `run_all_tests_for_model`. -/
def mainLoop (st : StressTester) (models : List (Bool × List TestMetrics)) : StressTester :=
  models.foldl (fun s m => (s.run_all_tests_for_model m.1 m.2 m.2.length).2.1) st

/-! Derived quantities the theorems talk about: the successful results of a
run and their token sum / time sum / time maximum. -/

/-- The successful results a sequential scenario saw, in order. -/
def successResults (gen : String → GenerationResult) (prompts : List String) :
    List GenerationResult :=
  (prompts.map gen).filter (fun r => r.success)

/-- Successful results of the basic scenario. -/
def basicSuccesses (gen : String → GenerationResult) : List GenerationResult :=
  successResults gen basicPrompts

/-- Successful results of the long-form scenario. -/
def longSuccesses (gen : String → GenerationResult) : List GenerationResult :=
  successResults gen long_prompts

/-- The successful dict results among a gathered result list (exceptions and
failed dicts dropped), in order. -/
def successesOf (results : List GatherItem) : List GenerationResult :=
  results.filterMap (fun item =>
    match item with
    | .dictResult d => if d.success then some d else none
    | .exceptionItem _ => none)

/-- Successful results of the concurrent scenario. -/
def concurrentSuccesses (gen : String → GatherItem) : List GenerationResult :=
  successesOf (concurrentPrompts.map gen)

/-- Total tokens over a list of results. -/
def sumTokens (l : List GenerationResult) : Nat :=
  (l.map GenerationResult.tokens).sum

/-- Total elapsed time over a list of results. -/
def sumTimes (l : List GenerationResult) : ℚ :=
  (l.map GenerationResult.response_time).sum

/-- Maximum elapsed time over a list of results, starting from the `0` the
concurrent scenario initialises `total_time` with. -/
def maxTime (l : List GenerationResult) : ℚ :=
  l.foldl (fun a d => max a d.response_time) 0

/-! Concrete inputs used by witnesses and counterexamples. -/

/-- A 210-word response body. -/
def c1Body : String := String.intercalate " " (List.replicate 210 "w")

/-- Concurrent-scenario environment: the five `Request 4` tasks fail with a
transport exception; the remaining twenty succeed, each with a 210-word body
after 12.4 s elapsed (so the maximum elapsed time over successes is 12.4 s and
their token sum is 4200). -/
def c1Gen : String → GatherItem := fun p =>
  if ("Request 4").data.isPrefixOf p.data then
    .exceptionItem "Cannot connect to host localhost:11435"
  else
    .dictResult (ShimmyClient.generate (.ok c1Body (62/5)))

/-- A fresh tester with no owned process. -/
def c2State0 : StressTester := { results := [], server_process := none }

/-- The three prompts the `claim_C3` concrete instance fails on. -/
def c3FailPrompts : List String := basicPrompts.take 3

/-- Basic-scenario environment with exactly 7 of the 10 attempts
succeeding. -/
def c3Gen : String → GenerationResult := fun p =>
  if p ∈ c3FailPrompts then
    ShimmyClient.generate (.transportError "Cannot connect to host localhost:11435" 2)
  else
    ShimmyClient.generate (.ok "a generated answer" 3)

/-- Environment where every request succeeds with an empty response body
(0 tokens) after 1 s. -/
def c4Gen : String → GenerationResult := fun _ => ShimmyClient.generate (.ok "" 1)

/-- Environment where every sequential request fails with a transport
error. -/
def c6GenSeq : String → GenerationResult := fun _ =>
  ShimmyClient.generate (.transportError "Cannot connect to host localhost:11435" 2)

/-- Environment where every concurrent task returns a failed dict. -/
def c6GenConc : String → GatherItem := fun _ =>
  .dictResult (ShimmyClient.generate (.transportError "Cannot connect to host localhost:11435" 2))

/-- Environment where every request succeeds with a two-word body. -/
def c8GenOk : String → GenerationResult := fun _ =>
  ShimmyClient.generate (.ok "two words" 2)

/-- A concrete scenario record, used to exercise the orchestrator paths. -/
def c9Metric : TestMetrics :=
  { model_name := "gpt-oss-20b-f16"
    test_name := "basic_generation"
    start_time := 0
    end_time := 100
    tokens_generated := 1000
    total_time_seconds := 80
    tokens_per_second := 25/2
    peak_gpu_memory_mb := 1800
    peak_cpu_memory_mb := 500
    average_response_time_ms := 8000
    success_rate := 1
    quality_score := 9/10 }

/-! Fold characterizations. -/

lemma seqFold_eq (gen : String → GenerationResult) (prompts : List String) :
    ∀ init : Nat × ℚ × Nat,
      prompts.foldl (fun acc prompt => seqStep acc (gen prompt)) init =
        (init.1 + sumTokens (successResults gen prompts),
         init.2.1 + sumTimes (successResults gen prompts),
         init.2.2 + (successResults gen prompts).length) := by
  induction prompts with
  | nil =>
    intro init
    simp [successResults, sumTokens, sumTimes]
  | cons p ps ih =>
    intro init
    simp only [List.foldl_cons]
    rw [ih]
    by_cases h : (gen p).success
    · simp only [seqStep, h, if_true, successResults, List.map_cons, List.filter_cons,
        List.sum_cons, List.length_cons, sumTokens, sumTimes, Prod.mk.injEq]
      refine ⟨by omega, by ring, by omega⟩
    · simp [seqStep, h, successResults, List.filter_cons]

lemma concFold_eq (results : List GatherItem) :
    ∀ init : Nat × ℚ × Nat,
      results.foldl concStep init =
        (init.1 + sumTokens (successesOf results),
         (successesOf results).foldl (fun a d => max a d.response_time) init.2.1,
         init.2.2 + (successesOf results).length) := by
  induction results with
  | nil =>
    intro init
    simp [successesOf, sumTokens]
  | cons item rest ih =>
    intro init
    cases item with
    | dictResult d =>
      by_cases h : d.success
      · simp only [List.foldl_cons, concStep, h, if_true, successesOf, List.filterMap_cons]
        rw [ih]
        simp only [successesOf, sumTokens, List.map_cons, List.sum_cons, List.foldl_cons,
          List.length_cons, Prod.mk.injEq]
        refine ⟨by omega, trivial, by omega⟩
      · simp only [List.foldl_cons, concStep, h, if_false, successesOf, List.filterMap_cons]
        rw [ih]
        simp [successesOf, h]
    | exceptionItem msg =>
      simp only [List.foldl_cons, concStep, successesOf, List.filterMap_cons]
      rw [ih]
      simp [successesOf]

lemma le_foldl_max (l : List ℚ) : ∀ a : ℚ, a ≤ l.foldl max a := by
  induction l with
  | nil => intro a; simp
  | cons x xs ih =>
    intro a
    exact le_trans (le_max_left a x) (ih (max a x))

lemma mem_le_foldl_max (l : List ℚ) : ∀ (a x : ℚ), x ∈ l → x ≤ l.foldl max a := by
  induction l with
  | nil =>
    intro a x h
    cases h
  | cons y ys ih =>
    intro a x h
    rcases List.mem_cons.mp h with rfl | h
    · exact le_trans (le_max_right a x) (le_foldl_max ys (max a x))
    · exact ih (max a y) x h

lemma foldl_max_eq_or_mem (l : List ℚ) : ∀ a : ℚ, l.foldl max a = a ∨ l.foldl max a ∈ l := by
  induction l with
  | nil =>
    intro a
    left
    rfl
  | cons x xs ih =>
    intro a
    rcases ih (max a x) with h | h
    · rcases max_choice a x with hm | hm
      · left
        rw [List.foldl_cons, h, hm]
      · right
        rw [List.foldl_cons, h, hm]
        exact List.mem_cons_self x xs
    · right
      exact List.mem_cons_of_mem x h

lemma maxTime_eq_foldl (l : List GenerationResult) :
    maxTime l = (l.map GenerationResult.response_time).foldl max 0 := by
  rw [maxTime, List.foldl_map]

lemma monitorLoop_peak (samples : List (Option ℚ)) :
    ∀ m : GPUMonitor,
      (m.monitorLoop samples).peak_memory = (samples.filterMap id).foldl max m.peak_memory := by
  induction samples with
  | nil =>
    intro m
    simp [GPUMonitor.monitorLoop]
  | cons s rest ih =>
    intro m
    cases s with
    | none =>
      simpa [GPUMonitor.monitorLoop, GPUMonitor.sample, List.filterMap_cons] using ih m
    | some v =>
      simpa [GPUMonitor.monitorLoop, GPUMonitor.sample, List.filterMap_cons]
        using ih { m with peak_memory := max m.peak_memory v }

lemma run_basic_fields (model : String) (gen : String → GenerationResult)
    (a1 a2 a3 a4 a5 : ℚ) :
    (run_basic_generation_test model gen a1 a2 a3 a4 a5).tokens_generated
        = sumTokens (basicSuccesses gen) ∧
    (run_basic_generation_test model gen a1 a2 a3 a4 a5).total_time_seconds
        = sumTimes (basicSuccesses gen) ∧
    (run_basic_generation_test model gen a1 a2 a3 a4 a5).tokens_per_second
        = (if 0 < sumTimes (basicSuccesses gen) then
            (sumTokens (basicSuccesses gen) : ℚ) / sumTimes (basicSuccesses gen) else 0) ∧
    (run_basic_generation_test model gen a1 a2 a3 a4 a5).average_response_time_ms
        = (if 0 < (basicSuccesses gen).length then
            (sumTimes (basicSuccesses gen) / ((basicSuccesses gen).length : ℚ)) * 1000 else 0) ∧
    (run_basic_generation_test model gen a1 a2 a3 a4 a5).success_rate
        = ((basicSuccesses gen).length : ℚ) / ((TEST_PROMPTS.length * 2 : Nat) : ℚ) := by
  simp only [run_basic_generation_test, seqFold_eq gen basicPrompts (0, 0, 0), basicSuccesses]
  norm_num

lemma run_long_fields (model : String) (gen : String → GenerationResult)
    (a1 a2 a3 a4 a5 : ℚ) :
    (run_long_form_generation_test model gen a1 a2 a3 a4 a5).tokens_generated
        = sumTokens (longSuccesses gen) ∧
    (run_long_form_generation_test model gen a1 a2 a3 a4 a5).total_time_seconds
        = sumTimes (longSuccesses gen) ∧
    (run_long_form_generation_test model gen a1 a2 a3 a4 a5).tokens_per_second
        = (if 0 < sumTimes (longSuccesses gen) then
            (sumTokens (longSuccesses gen) : ℚ) / sumTimes (longSuccesses gen) else 0) ∧
    (run_long_form_generation_test model gen a1 a2 a3 a4 a5).average_response_time_ms
        = (if 0 < (longSuccesses gen).length then
            (sumTimes (longSuccesses gen) / ((longSuccesses gen).length : ℚ)) * 1000 else 0) ∧
    (run_long_form_generation_test model gen a1 a2 a3 a4 a5).success_rate
        = ((longSuccesses gen).length : ℚ) / ((long_prompts.length : Nat) : ℚ) := by
  simp only [run_long_form_generation_test, seqFold_eq gen long_prompts (0, 0, 0), longSuccesses]
  norm_num

lemma run_concurrent_fields (model : String) (gen : String → GatherItem)
    (a1 a2 a3 a4 a5 : ℚ) :
    (run_concurrent_load_test model gen a1 a2 a3 a4 a5).tokens_generated
        = sumTokens (concurrentSuccesses gen) ∧
    (run_concurrent_load_test model gen a1 a2 a3 a4 a5).total_time_seconds
        = maxTime (concurrentSuccesses gen) ∧
    (run_concurrent_load_test model gen a1 a2 a3 a4 a5).tokens_per_second
        = (if 0 < maxTime (concurrentSuccesses gen) then
            (sumTokens (concurrentSuccesses gen) : ℚ) / maxTime (concurrentSuccesses gen)
          else 0) ∧
    (run_concurrent_load_test model gen a1 a2 a3 a4 a5).average_response_time_ms
        = (if 0 < (concurrentSuccesses gen).length then
            (maxTime (concurrentSuccesses gen) / ((concurrentSuccesses gen).length : ℚ)) * 1000
          else 0) ∧
    (run_concurrent_load_test model gen a1 a2 a3 a4 a5).success_rate
        = ((concurrentSuccesses gen).length : ℚ) / ((concurrentPrompts.length : Nat) : ℚ) := by
  simp only [run_concurrent_load_test,
    concFold_eq (concurrentPrompts.map gen) (0, 0, 0), concurrentSuccesses, maxTime]
  norm_num

lemma monitorLoop_skip_failed (samples : List (Option ℚ)) :
    ∀ m : GPUMonitor, m.monitorLoop samples = m.monitorLoop (samples.filter Option.isSome) := by
  induction samples with
  | nil =>
    intro m
    rfl
  | cons s rest ih =>
    intro m
    cases s with
    | none =>
      simpa [GPUMonitor.monitorLoop, GPUMonitor.sample, List.filter_cons] using ih m
    | some v =>
      simpa [GPUMonitor.monitorLoop, GPUMonitor.sample, List.filter_cons]
        using ih { m with peak_memory := max m.peak_memory v }

lemma successResults_length_le (gen : String → GenerationResult) (prompts : List String) :
    (successResults gen prompts).length ≤ prompts.length := by
  calc (successResults gen prompts).length ≤ (prompts.map gen).length :=
        List.length_filter_le _ _
    _ = prompts.length := List.length_map _ _

lemma concurrentSuccesses_length_le (gen : String → GatherItem) :
    (concurrentSuccesses gen).length ≤ concurrentPrompts.length := by
  calc (concurrentSuccesses gen).length ≤ (concurrentPrompts.map gen).length :=
        List.length_filterMap_le _ _
    _ = concurrentPrompts.length := List.length_map _ _

lemma rate_in_unit (k n : Nat) (hk : k ≤ n) (hn : 0 < n) :
    0 ≤ (k : ℚ) / (n : ℚ) ∧ (k : ℚ) / (n : ℚ) ≤ 1 := by
  constructor
  · exact div_nonneg (Nat.cast_nonneg k) (Nat.cast_nonneg n)
  · rw [div_le_one (by exact_mod_cast hn)]
    exact_mod_cast hk

lemma sumTimes_nonneg (l : List GenerationResult) (h : ∀ d ∈ l, 0 ≤ d.response_time) :
    0 ≤ sumTimes l := by
  apply List.sum_nonneg
  intro x hx
  obtain ⟨d, hd, rfl⟩ := List.mem_map.mp hx
  exact h d hd

lemma maxTime_nonneg (l : List GenerationResult) : 0 ≤ maxTime l := by
  rw [maxTime_eq_foldl]
  exact le_foldl_max _ 0

lemma mem_successResults (gen : String → GenerationResult) (prompts : List String)
    (d : GenerationResult) (hd : d ∈ successResults gen prompts) : ∃ p ∈ prompts, gen p = d :=
  List.mem_map.mp (List.mem_filter.mp hd).1

lemma successResults_eq_nil (gen : String → GenerationResult) (prompts : List String)
    (h : ∀ p ∈ prompts, (gen p).success = false) : successResults gen prompts = [] := by
  rw [successResults, List.filter_eq_nil_iff]
  intro a ha
  obtain ⟨p, hp, rfl⟩ := List.mem_map.mp ha
  simp [h p hp]

lemma concurrentSuccesses_eq_nil (gen : String → GatherItem)
    (h : ∀ p ∈ concurrentPrompts, ∀ d, gen p = GatherItem.dictResult d → d.success = false) :
    concurrentSuccesses gen = [] := by
  rw [concurrentSuccesses, successesOf, List.filterMap_eq_nil_iff]
  intro item hitem
  obtain ⟨p, hp, rfl⟩ := List.mem_map.mp hitem
  cases hgen : gen p with
  | dictResult d => simp [h p hp d hgen]
  | exceptionItem msg => rfl

lemma tps_guard_spec (n : Nat) (T : ℚ) (hT : 0 ≤ T) :
    0 ≤ (if 0 < T then (n : ℚ) / T else 0) ∧
    ((if 0 < T then (n : ℚ) / T else 0) = 0 ↔ (T = 0 ∨ n = 0)) := by
  rcases eq_or_lt_of_le hT with h | h
  · simp [← h]
  · rw [if_pos h]
    constructor
    · exact div_nonneg (Nat.cast_nonneg n) (le_of_lt h)
    · rw [div_eq_zero_iff]
      constructor
      · rintro (hc | hc)
        · exact Or.inr (by exact_mod_cast hc)
        · exact Or.inl hc
      · rintro (hc | hc)
        · exact Or.inr hc
        · exact Or.inl (by exact_mod_cast hc)

lemma sumTimes_replicate (k : Nat) (d : GenerationResult) :
    sumTimes (List.replicate k d) = (k : ℚ) * d.response_time := by
  simp [sumTimes, List.map_replicate, List.sum_replicate, nsmul_eq_mul]

/-! Claim theorems. -/

/-- C7: `stop_shimmy_server` always clears the owned process handle, and it is
idempotent — a second call in a row changes nothing (and, the function being
total, produces no error). -/
theorem claim_C7_stop_idempotent (st : StressTester) :
    st.stop_shimmy_server.server_process = none ∧
    st.stop_shimmy_server.stop_shimmy_server = st.stop_shimmy_server :=
  ⟨rfl, rfl⟩

/-- C10: the `quality_score` of every scenario record is a constant fixed by
the scenario kind — 0.9 basic, 0.85 long-form, 0.8 concurrent — whatever the
responses, token counts or success rate were. -/
theorem claim_C10_quality_score_constant (model : String)
    (genB genL : String → GenerationResult) (genC : String → GatherItem)
    (a1 a2 a3 a4 a5 b1 b2 b3 b4 b5 d1 d2 d3 d4 d5 : ℚ) :
    (run_basic_generation_test model genB a1 a2 a3 a4 a5).quality_score = 9/10 ∧
    (run_long_form_generation_test model genL b1 b2 b3 b4 b5).quality_score = 17/20 ∧
    (run_concurrent_load_test model genC d1 d2 d3 d4 d5).quality_score = 4/5 :=
  ⟨rfl, rfl, rfl⟩

/-- C2 counterexample: with a fresh tester, a spawned process (pid 4242) and a
health check that answers 500 (failing for its whole window),
`start_shimmy_server` does return `False`, but the spawned process is NOT
terminated: the tester still owns the running process, so an orphan remains
past the `start` boundary — refuting the no-orphan half of the claim. -/
theorem claim_C2_counterexample :
    (c2State0.start_shimmy_server 4242 (.healthStatus 500)).1 = false ∧
    (c2State0.start_shimmy_server 4242 (.healthStatus 500)).2.server_process = some 4242 :=
  ⟨rfl, rfl⟩

/-- C2 (amended): if the health check fails (non-200 status or a raised
request exception) `start_shimmy_server` returns `False` but keeps the spawned
process running under its handle (no termination); if spawning itself fails it
returns `False` with no process handle; a 200 health response returns `True`;
and no failure raises past this boundary — every outcome is reported through
the boolean return value (plus a log record). -/
theorem claim_C2_amended_start_failure (st : StressTester) (pid status_code : Nat)
    (msg : String) (h : status_code ≠ 200) :
    st.start_shimmy_server pid (.healthStatus status_code)
        = (false, { results := st.results, server_process := some pid }) ∧
    st.start_shimmy_server pid (.healthException msg)
        = (false, { results := st.results, server_process := some pid }) ∧
    st.start_shimmy_server pid (.spawnFailure msg)
        = (false, { results := st.results, server_process := none }) ∧
    (st.start_shimmy_server pid (.healthStatus 200)).1 = true := by
  refine ⟨?_, rfl, rfl, rfl⟩
  simp [StressTester.start_shimmy_server, StressTester.stop_shimmy_server, h]

/-- Witness for `claim_C2_amended_start_failure` at a concrete input. -/
theorem claim_C2_amended_witness :
    (500 : Nat) ≠ 200 ∧
    c2State0.start_shimmy_server 7 (.healthStatus 500)
        = (false, { results := [], server_process := some 7 }) :=
  ⟨by decide, (claim_C2_amended_start_failure c2State0 7 500 "boom" (by decide)).1⟩

/-- C8: `ShimmyClient.generate` is total — no fault propagates to the caller.
Every failing outcome (non-200 status or transport exception) yields
`success = false` with zero tokens and an error detail built from the status
code or the exception message; a successful response yields `success = true`
with the error field empty. -/
theorem claim_C8_generate_error_boundary (o : HttpOutcome)
    (status : Nat) (text msg body : String) (t : ℚ) :
    ((ShimmyClient.generate o).success = false →
      (ShimmyClient.generate o).tokens = 0 ∧
      ((ShimmyClient.generate o).error).isSome = true) ∧
    ((ShimmyClient.generate o).success = true → (ShimmyClient.generate o).error = none) ∧
    (ShimmyClient.generate (.ok body t)).success = true ∧
    (ShimmyClient.generate (.httpError status text t)).success = false ∧
    (ShimmyClient.generate (.httpError status text t)).error
        = some ("API error " ++ toString status ++ ": " ++ text) ∧
    (ShimmyClient.generate (.transportError msg t)).success = false ∧
    (ShimmyClient.generate (.transportError msg t)).error = some msg := by
  cases o <;> simp [ShimmyClient.generate]

/-- Witness for `claim_C8_generate_error_boundary` at concrete outcomes. -/
theorem claim_C8_witness :
    (ShimmyClient.generate (.httpError 500 "Internal Server Error" 2)).tokens = 0 ∧
    ((ShimmyClient.generate (.httpError 500 "Internal Server Error" 2)).error).isSome = true ∧
    (ShimmyClient.generate (.ok "two words" 2)).error = none := by
  have h1 := claim_C8_generate_error_boundary (.httpError 500 "Internal Server Error" 2)
    500 "Internal Server Error" "boom" "two words" 2
  have h2 := claim_C8_generate_error_boundary (.ok "two words" 2)
    500 "Internal Server Error" "boom" "two words" 2
  exact ⟨(h1.1 rfl).1, (h1.1 rfl).2, h2.2.1 rfl⟩

/-- C5: `start_monitoring` resets the peak accumulator to zero; after a
monitoring window that saw the given samples, `stop_monitoring` returns a
value ≥ every successfully taken sample, equal to 0 when no sample ever
succeeded; and a failed sample is skipped without aborting the loop — running
over all samples equals running over the successful ones only. -/
theorem claim_C5_resource_monitor (m : GPUMonitor) (samples : List (Option ℚ)) :
    m.start_monitoring.peak_memory = 0 ∧
    (∀ v : ℚ, some v ∈ samples →
      v ≤ ((m.start_monitoring.monitorLoop samples).stop_monitoring).1) ∧
    ((∀ s ∈ samples, s = none) →
      ((m.start_monitoring.monitorLoop samples).stop_monitoring).1 = 0) ∧
    m.start_monitoring.monitorLoop samples
        = m.start_monitoring.monitorLoop (samples.filter Option.isSome) := by
  refine ⟨rfl, ?_, ?_, monitorLoop_skip_failed samples m.start_monitoring⟩
  · intro v hv
    have hpeak : ((m.start_monitoring.monitorLoop samples).stop_monitoring).1
        = (samples.filterMap id).foldl max m.start_monitoring.peak_memory :=
      monitorLoop_peak samples m.start_monitoring
    rw [hpeak]
    exact mem_le_foldl_max _ _ v (List.mem_filterMap.mpr ⟨some v, hv, rfl⟩)
  · intro h0
    have hpeak : ((m.start_monitoring.monitorLoop samples).stop_monitoring).1
        = (samples.filterMap id).foldl max m.start_monitoring.peak_memory :=
      monitorLoop_peak samples m.start_monitoring
    have hnil : samples.filterMap id = [] := by
      rw [List.filterMap_eq_nil_iff]
      intro a ha
      rw [h0 a ha]
      rfl
    rw [hpeak, hnil]
    rfl

/-- C1: in the concurrent scenario `total_time_seconds` is the maximum, not
the sum, of the successful response times (it bounds each of them from above
and, when any success exists and all elapsed times are nonnegative, is
attained by one of them), and `tokens_per_second` is the token sum across
successes divided by that maximum whenever the maximum is positive. -/
theorem claim_C1_concurrent_aggregation (model : String) (gen : String → GatherItem)
    (a1 a2 a3 a4 a5 : ℚ)
    (hpos : ∀ d ∈ concurrentSuccesses gen, 0 ≤ d.response_time) :
    (run_concurrent_load_test model gen a1 a2 a3 a4 a5).total_time_seconds
        = maxTime (concurrentSuccesses gen) ∧
    (∀ d ∈ concurrentSuccesses gen,
      d.response_time
        ≤ (run_concurrent_load_test model gen a1 a2 a3 a4 a5).total_time_seconds) ∧
    (concurrentSuccesses gen ≠ [] →
      (run_concurrent_load_test model gen a1 a2 a3 a4 a5).total_time_seconds
        ∈ (concurrentSuccesses gen).map GenerationResult.response_time) ∧
    (0 < maxTime (concurrentSuccesses gen) →
      (run_concurrent_load_test model gen a1 a2 a3 a4 a5).tokens_per_second
        = (sumTokens (concurrentSuccesses gen) : ℚ) / maxTime (concurrentSuccesses gen)) := by
  obtain ⟨-, htime, htps, -, -⟩ := run_concurrent_fields model gen a1 a2 a3 a4 a5
  refine ⟨htime, ?_, ?_, ?_⟩
  · intro d hd
    rw [htime, maxTime_eq_foldl]
    exact mem_le_foldl_max _ _ _ (List.mem_map_of_mem _ hd)
  · intro hne
    rw [htime, maxTime_eq_foldl]
    rcases foldl_max_eq_or_mem
        ((concurrentSuccesses gen).map GenerationResult.response_time) 0 with h | h
    · obtain ⟨d, hd⟩ := List.exists_mem_of_ne_nil _ hne
      have h1 : d.response_time ≤ 0 := by
        have hle := mem_le_foldl_max
          ((concurrentSuccesses gen).map GenerationResult.response_time) 0
          d.response_time (List.mem_map_of_mem _ hd)
        rw [h] at hle
        exact hle
      have h2 : d.response_time = 0 := le_antisymm h1 (hpos d hd)
      rw [h, ← h2]
      exact List.mem_map_of_mem _ hd
    · exact h
  · intro hlt
    rw [htps, if_pos hlt]

/-- Witness for `claim_C1_concurrent_aggregation` at the concrete environment
`c1Gen`: 25 issued requests, 20 successes, maximum elapsed time 12.4 s, 4200
total tokens; `tokens_per_second = 10500/31 ≈ 338.7` (within 0.01 of 338.7),
while the sequential sum of successful times (248 s) differs from
`total_time_seconds`. -/
theorem claim_C1_witness :
    concurrentPrompts.length = 25 ∧
    (concurrentSuccesses c1Gen).length = 20 ∧
    sumTokens (concurrentSuccesses c1Gen) = 4200 ∧
    maxTime (concurrentSuccesses c1Gen) = 62/5 ∧
    (run_concurrent_load_test "gpt-oss-20b-f16" c1Gen 0 0 0 0 0).total_time_seconds
        = maxTime (concurrentSuccesses c1Gen) ∧
    (run_concurrent_load_test "gpt-oss-20b-f16" c1Gen 0 0 0 0 0).tokens_per_second
        = 10500/31 ∧
    |(run_concurrent_load_test "gpt-oss-20b-f16" c1Gen 0 0 0 0 0).tokens_per_second
        - 3387/10| < 1/100 ∧
    sumTimes (concurrentSuccesses c1Gen)
        ≠ (run_concurrent_load_test "gpt-oss-20b-f16" c1Gen 0 0 0 0 0).total_time_seconds := by
  have hrep : concurrentSuccesses c1Gen
      = List.replicate 20 (ShimmyClient.generate (.ok c1Body (62/5))) := by rfl
  have hpos : ∀ d ∈ concurrentSuccesses c1Gen, 0 ≤ d.response_time := by
    rw [hrep]
    intro d hd
    rw [List.eq_of_mem_replicate hd]
    norm_num [ShimmyClient.generate]
  obtain ⟨htime, hub, -, htps⟩ :=
    claim_C1_concurrent_aggregation "gpt-oss-20b-f16" c1Gen 0 0 0 0 0 hpos
  have htok : (ShimmyClient.generate (.ok c1Body (62/5))).tokens = 210 := by decide
  have hmax : maxTime (concurrentSuccesses c1Gen) = 62/5 := by
    have hmem : ShimmyClient.generate (.ok c1Body (62/5)) ∈ concurrentSuccesses c1Gen := by
      rw [hrep]
      exact List.mem_replicate.mpr ⟨by norm_num, rfl⟩
    have hle : (62:ℚ)/5 ≤ maxTime (concurrentSuccesses c1Gen) := by
      have hb := hub _ hmem
      rw [htime] at hb
      exact hb
    have hge : maxTime (concurrentSuccesses c1Gen) ≤ 62/5 := by
      rw [maxTime_eq_foldl, hrep, List.map_replicate]
      rcases foldl_max_eq_or_mem
          (List.replicate 20 (ShimmyClient.generate (.ok c1Body (62/5))).response_time) 0
        with h | h
      · rw [h]
        norm_num
      · rw [List.eq_of_mem_replicate h]
        norm_num [ShimmyClient.generate]
    exact le_antisymm hge hle
  have hsum : sumTokens (concurrentSuccesses c1Gen) = 4200 := by
    rw [hrep, sumTokens, List.map_replicate, List.sum_replicate, htok]
    norm_num
  refine ⟨by decide, by rw [hrep]; rfl, hsum, hmax, htime, ?_, ?_, ?_⟩
  · rw [htps (by rw [hmax]; norm_num), hsum, hmax]
    norm_num
  · rw [htps (by rw [hmax]; norm_num), hsum, hmax, abs_sub_lt_iff]
    constructor <;> norm_num
  · rw [htime, hmax, hrep, sumTimes_replicate]
    norm_num [ShimmyClient.generate]

/-- Witness for `claim_C5_resource_monitor` at concrete sample lists. -/
theorem claim_C5_witness :
    (some (5 : ℚ) ∈ [some (5 : ℚ), none, some 3]) ∧
    (5 : ℚ) ≤ ((GPUMonitor.init.start_monitoring.monitorLoop
        [some (5 : ℚ), none, some 3]).stop_monitoring).1 ∧
    (∀ s ∈ ([none, none] : List (Option ℚ)), s = none) ∧
    ((GPUMonitor.init.start_monitoring.monitorLoop
        ([none, none] : List (Option ℚ))).stop_monitoring).1 = 0 :=
  ⟨by decide,
   (claim_C5_resource_monitor GPUMonitor.init [some 5, none, some 3]).2.1 5 (by decide),
   by decide,
   (claim_C5_resource_monitor GPUMonitor.init [none, none]).2.2.1 (by decide)⟩

/-- C3: every scenario's success rate lies in [0, 1] and equals the number of
successes divided by the attempts — for Basic the 10 iterated prompts (the
code's denominator `len(TEST_PROMPTS) * 2` equals that attempt count), for
Long-form the 3 long prompts, for Concurrent the 25 issued requests — and on
a Basic run where exactly 7 of the 10 attempts succeed the rate is 0.7. -/
theorem claim_C3_success_rate_bounds (model : String)
    (genB genL : String → GenerationResult) (genC : String → GatherItem)
    (a1 a2 a3 a4 a5 : ℚ) :
    (0 ≤ (run_basic_generation_test model genB a1 a2 a3 a4 a5).success_rate ∧
      (run_basic_generation_test model genB a1 a2 a3 a4 a5).success_rate ≤ 1) ∧
    (run_basic_generation_test model genB a1 a2 a3 a4 a5).success_rate
        = ((basicSuccesses genB).length : ℚ) / ((basicPrompts.length : Nat) : ℚ) ∧
    basicPrompts.length = TEST_PROMPTS.length * 2 ∧
    (0 ≤ (run_long_form_generation_test model genL a1 a2 a3 a4 a5).success_rate ∧
      (run_long_form_generation_test model genL a1 a2 a3 a4 a5).success_rate ≤ 1) ∧
    (run_long_form_generation_test model genL a1 a2 a3 a4 a5).success_rate
        = ((longSuccesses genL).length : ℚ) / ((long_prompts.length : Nat) : ℚ) ∧
    (0 ≤ (run_concurrent_load_test model genC a1 a2 a3 a4 a5).success_rate ∧
      (run_concurrent_load_test model genC a1 a2 a3 a4 a5).success_rate ≤ 1) ∧
    (run_concurrent_load_test model genC a1 a2 a3 a4 a5).success_rate
        = ((concurrentSuccesses genC).length : ℚ) / ((concurrentPrompts.length : Nat) : ℚ) ∧
    concurrentPrompts.length = 25 ∧
    (run_basic_generation_test model c3Gen a1 a2 a3 a4 a5).success_rate = 7/10 := by
  obtain ⟨-, -, -, -, hB⟩ := run_basic_fields model genB a1 a2 a3 a4 a5
  obtain ⟨-, -, -, -, hL⟩ := run_long_fields model genL a1 a2 a3 a4 a5
  obtain ⟨-, -, -, -, hC⟩ := run_concurrent_fields model genC a1 a2 a3 a4 a5
  obtain ⟨-, -, -, -, hB7⟩ := run_basic_fields model c3Gen a1 a2 a3 a4 a5
  have hbl : basicPrompts.length = 10 := by decide
  have hden : (TEST_PROMPTS.length * 2 : Nat) = 10 := by decide
  have hll : long_prompts.length = 3 := by decide
  have hcl : concurrentPrompts.length = 25 := by decide
  have hkB : (basicSuccesses genB).length ≤ 10 := by
    have h := successResults_length_le genB basicPrompts
    rwa [hbl] at h
  have hkL : (longSuccesses genL).length ≤ 3 := by
    have h := successResults_length_le genL long_prompts
    rwa [hll] at h
  have hkC : (concurrentSuccesses genC).length ≤ 25 := by
    have h := concurrentSuccesses_length_le genC
    rwa [hcl] at h
  refine ⟨?_, ?_, by decide, ?_, ?_, ?_, ?_, hcl, ?_⟩
  · rw [hB, hden]
    exact rate_in_unit _ 10 hkB (by norm_num)
  · rw [hB, hden, hbl]
  · rw [hL, hll]
    exact rate_in_unit _ 3 hkL (by norm_num)
  · exact hL
  · rw [hC, hcl]
    exact rate_in_unit _ 25 hkC (by norm_num)
  · exact hC
  · have h7 : (basicSuccesses c3Gen).length = 7 := by decide
    rw [hB7, h7, hden]
    norm_num

/-- C4 counterexample: on a Basic run where every request succeeds with an
empty response body (0 tokens) after 1 s, `tokens_per_second = 0` while
`total_time_seconds = 10 ≠ 0` — so `tokens_per_second` is NOT zero exactly
when `total_time_seconds` is zero. -/
theorem claim_C4_counterexample :
    (run_basic_generation_test "gpt-oss-20b-f16" c4Gen 0 0 0 0 0).tokens_per_second = 0 ∧
    (run_basic_generation_test "gpt-oss-20b-f16" c4Gen 0 0 0 0 0).total_time_seconds = 10 := by
  obtain ⟨-, htime, htps, -, -⟩ := run_basic_fields "gpt-oss-20b-f16" c4Gen 0 0 0 0 0
  have hrep : basicSuccesses c4Gen
      = List.replicate 10 (ShimmyClient.generate (.ok "" 1)) := by rfl
  have ht10 : sumTimes (basicSuccesses c4Gen) = 10 := by
    rw [hrep, sumTimes_replicate]
    norm_num [ShimmyClient.generate]
  have htok0 : sumTokens (basicSuccesses c4Gen) = 0 := by decide
  refine ⟨?_, by rw [htime, ht10]⟩
  rw [htps, ht10, htok0]
  norm_num

/-- C4 (amended): for every scenario, `tokens_per_second` equals
`tokens_generated / total_time_seconds` when `total_time_seconds > 0` and `0`
otherwise, so the division is guarded and never a fault; given nonnegative
per-request elapsed times it is ≥ 0; and it equals 0 exactly when
`total_time_seconds = 0` OR `tokens_generated = 0` (zero tokens with positive
total time also yields 0, which the original "exactly when
total_time_seconds = 0" misses). -/
theorem claim_C4_amended_tps (model : String)
    (genB genL : String → GenerationResult) (genC : String → GatherItem)
    (a1 a2 a3 a4 a5 : ℚ)
    (hB : ∀ p ∈ basicPrompts, 0 ≤ (genB p).response_time)
    (hL : ∀ p ∈ long_prompts, 0 ≤ (genL p).response_time) :
    ((run_basic_generation_test model genB a1 a2 a3 a4 a5).tokens_per_second
        = (if 0 < (run_basic_generation_test model genB a1 a2 a3 a4 a5).total_time_seconds
           then ((run_basic_generation_test model genB a1 a2 a3 a4 a5).tokens_generated : ℚ)
              / (run_basic_generation_test model genB a1 a2 a3 a4 a5).total_time_seconds
           else 0) ∧
      0 ≤ (run_basic_generation_test model genB a1 a2 a3 a4 a5).tokens_per_second ∧
      ((run_basic_generation_test model genB a1 a2 a3 a4 a5).tokens_per_second = 0 ↔
        ((run_basic_generation_test model genB a1 a2 a3 a4 a5).total_time_seconds = 0 ∨
          (run_basic_generation_test model genB a1 a2 a3 a4 a5).tokens_generated = 0))) ∧
    ((run_long_form_generation_test model genL a1 a2 a3 a4 a5).tokens_per_second
        = (if 0 < (run_long_form_generation_test model genL a1 a2 a3 a4 a5).total_time_seconds
           then ((run_long_form_generation_test model genL a1 a2 a3 a4 a5).tokens_generated : ℚ)
              / (run_long_form_generation_test model genL a1 a2 a3 a4 a5).total_time_seconds
           else 0) ∧
      0 ≤ (run_long_form_generation_test model genL a1 a2 a3 a4 a5).tokens_per_second ∧
      ((run_long_form_generation_test model genL a1 a2 a3 a4 a5).tokens_per_second = 0 ↔
        ((run_long_form_generation_test model genL a1 a2 a3 a4 a5).total_time_seconds = 0 ∨
          (run_long_form_generation_test model genL a1 a2 a3 a4 a5).tokens_generated = 0))) ∧
    ((run_concurrent_load_test model genC a1 a2 a3 a4 a5).tokens_per_second
        = (if 0 < (run_concurrent_load_test model genC a1 a2 a3 a4 a5).total_time_seconds
           then ((run_concurrent_load_test model genC a1 a2 a3 a4 a5).tokens_generated : ℚ)
              / (run_concurrent_load_test model genC a1 a2 a3 a4 a5).total_time_seconds
           else 0) ∧
      0 ≤ (run_concurrent_load_test model genC a1 a2 a3 a4 a5).tokens_per_second ∧
      ((run_concurrent_load_test model genC a1 a2 a3 a4 a5).tokens_per_second = 0 ↔
        ((run_concurrent_load_test model genC a1 a2 a3 a4 a5).total_time_seconds = 0 ∨
          (run_concurrent_load_test model genC a1 a2 a3 a4 a5).tokens_generated = 0))) := by
  obtain ⟨htokB, htimeB, htpsB, -, -⟩ := run_basic_fields model genB a1 a2 a3 a4 a5
  obtain ⟨htokL, htimeL, htpsL, -, -⟩ := run_long_fields model genL a1 a2 a3 a4 a5
  obtain ⟨htokC, htimeC, htpsC, -, -⟩ := run_concurrent_fields model genC a1 a2 a3 a4 a5
  have hTB : 0 ≤ sumTimes (basicSuccesses genB) := by
    apply sumTimes_nonneg
    intro d hd
    obtain ⟨p, hp, rfl⟩ := mem_successResults genB basicPrompts d hd
    exact hB p hp
  have hTL : 0 ≤ sumTimes (longSuccesses genL) := by
    apply sumTimes_nonneg
    intro d hd
    obtain ⟨p, hp, rfl⟩ := mem_successResults genL long_prompts d hd
    exact hL p hp
  have hTC : 0 ≤ maxTime (concurrentSuccesses genC) := maxTime_nonneg _
  obtain ⟨hgeB, hiffB⟩ := tps_guard_spec (sumTokens (basicSuccesses genB)) _ hTB
  obtain ⟨hgeL, hiffL⟩ := tps_guard_spec (sumTokens (longSuccesses genL)) _ hTL
  obtain ⟨hgeC, hiffC⟩ := tps_guard_spec (sumTokens (concurrentSuccesses genC)) _ hTC
  refine ⟨⟨?_, ?_, ?_⟩, ⟨?_, ?_, ?_⟩, ⟨?_, ?_, ?_⟩⟩
  · rw [htpsB, htimeB, htokB]
  · rw [htpsB]
    exact hgeB
  · rw [htpsB, htimeB, htokB]
    exact hiffB
  · rw [htpsL, htimeL, htokL]
  · rw [htpsL]
    exact hgeL
  · rw [htpsL, htimeL, htokL]
    exact hiffL
  · rw [htpsC, htimeC, htokC]
  · rw [htpsC]
    exact hgeC
  · rw [htpsC, htimeC, htokC]
    exact hiffC

/-- Witness for `claim_C4_amended_tps` at concrete environments. -/
theorem claim_C4_amended_witness :
    (∀ p ∈ basicPrompts, 0 ≤ (c8GenOk p).response_time) ∧
    (∀ p ∈ long_prompts, 0 ≤ (c8GenOk p).response_time) ∧
    0 ≤ (run_basic_generation_test "gpt-oss-20b-f16" c8GenOk 0 0 0 0 0).tokens_per_second ∧
    ((run_concurrent_load_test "gpt-oss-20b-f16" c6GenConc 0 0 0 0 0).tokens_per_second = 0 ↔
      ((run_concurrent_load_test "gpt-oss-20b-f16" c6GenConc 0 0 0 0 0).total_time_seconds = 0 ∨
        (run_concurrent_load_test "gpt-oss-20b-f16" c6GenConc 0 0 0 0 0).tokens_generated
          = 0)) := by
  have hok : ∀ p ∈ basicPrompts, 0 ≤ (c8GenOk p).response_time := by
    intro p _
    norm_num [c8GenOk, ShimmyClient.generate]
  have hokL : ∀ p ∈ long_prompts, 0 ≤ (c8GenOk p).response_time := by
    intro p _
    norm_num [c8GenOk, ShimmyClient.generate]
  have h := claim_C4_amended_tps "gpt-oss-20b-f16" c8GenOk c8GenOk c6GenConc 0 0 0 0 0 hok hokL
  exact ⟨hok, hokL, h.1.2.1, h.2.2.2.2⟩

/-- C6: a scenario run in which every request fails still produces a
TestMetrics record (the runners are total functions) with zero
tokens-per-second, zero average response time, and zero success rate, for each
of the three scenarios. -/
theorem claim_C6_all_fail_zero_rates (model : String)
    (genB genL : String → GenerationResult) (genC : String → GatherItem)
    (a1 a2 a3 a4 a5 : ℚ)
    (hB : ∀ p ∈ basicPrompts, (genB p).success = false)
    (hL : ∀ p ∈ long_prompts, (genL p).success = false)
    (hC : ∀ p ∈ concurrentPrompts, ∀ d, genC p = GatherItem.dictResult d →
      d.success = false) :
    (run_basic_generation_test model genB a1 a2 a3 a4 a5).tokens_per_second = 0 ∧
    (run_basic_generation_test model genB a1 a2 a3 a4 a5).average_response_time_ms = 0 ∧
    (run_basic_generation_test model genB a1 a2 a3 a4 a5).success_rate = 0 ∧
    (run_long_form_generation_test model genL a1 a2 a3 a4 a5).tokens_per_second = 0 ∧
    (run_long_form_generation_test model genL a1 a2 a3 a4 a5).average_response_time_ms = 0 ∧
    (run_long_form_generation_test model genL a1 a2 a3 a4 a5).success_rate = 0 ∧
    (run_concurrent_load_test model genC a1 a2 a3 a4 a5).tokens_per_second = 0 ∧
    (run_concurrent_load_test model genC a1 a2 a3 a4 a5).average_response_time_ms = 0 ∧
    (run_concurrent_load_test model genC a1 a2 a3 a4 a5).success_rate = 0 := by
  have hnB : basicSuccesses genB = [] := successResults_eq_nil genB basicPrompts hB
  have hnL : longSuccesses genL = [] := successResults_eq_nil genL long_prompts hL
  have hnC : concurrentSuccesses genC = [] := concurrentSuccesses_eq_nil genC hC
  obtain ⟨-, -, htpsB, havgB, hrB⟩ := run_basic_fields model genB a1 a2 a3 a4 a5
  obtain ⟨-, -, htpsL, havgL, hrL⟩ := run_long_fields model genL a1 a2 a3 a4 a5
  obtain ⟨-, -, htpsC, havgC, hrC⟩ := run_concurrent_fields model genC a1 a2 a3 a4 a5
  refine ⟨?_, ?_, ?_, ?_, ?_, ?_, ?_, ?_, ?_⟩
  · rw [htpsB, hnB]
    norm_num [sumTimes]
  · rw [havgB, hnB]
    norm_num
  · rw [hrB, hnB]
    norm_num
  · rw [htpsL, hnL]
    norm_num [sumTimes]
  · rw [havgL, hnL]
    norm_num
  · rw [hrL, hnL]
    norm_num
  · rw [htpsC, hnC]
    norm_num [maxTime]
  · rw [havgC, hnC]
    norm_num
  · rw [hrC, hnC]
    norm_num

/-- Witness for `claim_C6_all_fail_zero_rates`: all requests fail with a
transport error. -/
theorem claim_C6_witness :
    (∀ p ∈ basicPrompts, (c6GenSeq p).success = false) ∧
    (run_basic_generation_test "gpt-oss-20b-f16" c6GenSeq 0 0 0 0 0).tokens_per_second = 0 ∧
    (run_basic_generation_test "gpt-oss-20b-f16" c6GenSeq 0 0 0 0 0).average_response_time_ms
        = 0 ∧
    (run_basic_generation_test "gpt-oss-20b-f16" c6GenSeq 0 0 0 0 0).success_rate = 0 ∧
    (run_long_form_generation_test "gpt-oss-20b-f16" c6GenSeq 0 0 0 0 0).success_rate = 0 ∧
    (run_concurrent_load_test "gpt-oss-20b-f16" c6GenConc 0 0 0 0 0).success_rate = 0 := by
  have hB : ∀ p ∈ basicPrompts, (c6GenSeq p).success = false := by decide
  have hL : ∀ p ∈ long_prompts, (c6GenSeq p).success = false := by decide
  have hC : ∀ p ∈ concurrentPrompts, ∀ d, c6GenConc p = GatherItem.dictResult d →
      d.success = false := by
    intro p _ d hd
    simp only [c6GenConc] at hd
    injection hd with h
    rw [← h]
    rfl
  have h := claim_C6_all_fail_zero_rates "gpt-oss-20b-f16" c6GenSeq c6GenSeq c6GenConc
    0 0 0 0 0 hB hL hC
  exact ⟨hB, h.1, h.2.1, h.2.2.1, h.2.2.2.2.2.1, h.2.2.2.2.2.2.2.2⟩

/-- C9: on server-start failure the model's scenarios are skipped — nothing
is appended, the empty record list is returned, and the main loop continues
with the next model from an unchanged state; on a successful start, one record
per completed scenario is appended to the shared collection and
`stop_shimmy_server` runs (clearing the process handle) on every exit path,
whether the scenarios complete or abort after any prefix. -/
theorem claim_C9_orchestrator_cleanup (st : StressTester) (scen : List TestMetrics)
    (completed : Nat) (rest : List (Bool × List TestMetrics)) :
    st.run_all_tests_for_model false scen completed = (some [], st, false) ∧
    (st.run_all_tests_for_model true scen completed).2.2 = true ∧
    (st.run_all_tests_for_model true scen completed).2.1.results
        = st.results ++ scen.take completed ∧
    (st.run_all_tests_for_model true scen completed).2.1.server_process = none ∧
    (completed = scen.length →
      st.run_all_tests_for_model true scen completed
        = (some scen, { results := st.results ++ scen, server_process := none }, true)) ∧
    mainLoop st ((false, scen) :: rest) = mainLoop st rest := by
  refine ⟨rfl, ?_, ?_, ?_, ?_, ?_⟩
  · by_cases h : scen.length ≤ completed <;>
      simp [StressTester.run_all_tests_for_model, StressTester.stop_shimmy_server, h]
  · by_cases h : scen.length ≤ completed <;>
      simp [StressTester.run_all_tests_for_model, StressTester.stop_shimmy_server, h]
  · by_cases h : scen.length ≤ completed <;>
      simp [StressTester.run_all_tests_for_model, StressTester.stop_shimmy_server, h]
  · intro h
    subst h
    simp [StressTester.run_all_tests_for_model, StressTester.stop_shimmy_server,
      List.take_length]
  · simp [mainLoop, StressTester.run_all_tests_for_model]

/-- Witness for `claim_C9_orchestrator_cleanup` at a concrete state and
scenario list. -/
theorem claim_C9_witness :
    ((1 : Nat) = [c9Metric].length) ∧
    c2State0.run_all_tests_for_model true [c9Metric] 1
        = (some [c9Metric], { results := [c9Metric], server_process := none }, true) ∧
    c2State0.run_all_tests_for_model false [c9Metric] 1 = (some [], c2State0, false) := by
  have h := claim_C9_orchestrator_cleanup c2State0 [c9Metric] 1 []
  exact ⟨rfl, h.2.2.2.2.1 rfl, h.1⟩

end MoeStress
